import Mathlib

/-!
Verification development for a browser voice-tutoring client with two
realtime transports: a message-oriented live session (`useLiveApi` in
use-live-api.ts) and a WebRTC peer-connection session (`useOpenAiWebRtc`),
plus a pure prompt builder (`buildMathTutorSystemInstruction` in
math-tutor.ts).  Playback-clock times and sample values are modelled as
rationals; millisecond timestamps (`Date.now()`) as naturals, so the
source's `now - last < 1200` comparison is modelled with truncated
subtraction, which agrees with the JavaScript comparison whenever
`last ≤ now` and also drops the event when it does not.
-/

namespace VoiceChat

/-! ## Inbound audio scheduler (use-live-api.ts onmessage, lines 196-200)

`const start = Math.max(now, nextScheduledTimeRef.current);`
`source.start(start);`
`nextScheduledTimeRef.current = start + buffer.duration;`

A chunk is a pair `(now, dur)`: the playback clock at the moment the
payload is scheduled and the decoded buffer duration. -/

/-- One scheduling step: given the playback clock `now`, the buffer
duration `dur` and the timeline next-free-slot `slot`, return the chosen
start time and the advanced slot. -/
def scheduleChunk (now dur slot : ℚ) : ℚ × ℚ :=
  (max now slot, max now slot + dur)

/-- Schedule a whole arrival sequence of `(clock, duration)` pairs,
threading the next-free-slot; returns the list of `(start, duration)`
pairs in arrival order. -/
def scheduleAll (slot : ℚ) : List (ℚ × ℚ) → List (ℚ × ℚ)
  | [] => []
  | (now, dur) :: rest =>
      (max now slot, dur) :: scheduleAll (max now slot + dur) rest

/-! ## Outbound PCM16 encoder (use-live-api.ts onaudioprocess, lines 232-237)

`const s = Math.max(-1, Math.min(1, dataToSend[i]));`
`pcmData[i] = s < 0 ? s * 0x8000 : s * 0x7FFF;`

Assignment into an `Int16Array` truncates toward zero (no wrap occurs for
clamped scaled samples).  The inbound decoder (lines 179-183) divides by
32768: `float32[i] = int16[i] / 32768.0`. -/

/-- Clamp a floating-point sample to `[-1, 1]`. -/
def clampSample (x : ℚ) : ℚ := max (-1) (min 1 x)

/-- Truncation toward zero, as performed by storing into an `Int16Array`. -/
def truncTowardZero (q : ℚ) : ℤ :=
  if 0 ≤ q then ⌊q⌋ else -⌊-q⌋

/-- The outbound encoder for one sample: clamp, then scale negatives by
`0x8000 = 32768` and non-negatives by `0x7FFF = 32767`, truncating. -/
def encodePcm16 (x : ℚ) : ℤ :=
  truncTowardZero
    (if clampSample x < 0 then clampSample x * 32768 else clampSample x * 32767)

/-- The inbound decoder for one sample: division by `32768.0`. -/
def decodePcm16 (i : ℤ) : ℚ := (i : ℚ) / 32768

/-! ## Embedded JavaScript string primitives -/

/-- JavaScript `String.prototype.trim()`: strip leading and trailing
whitespace. -/
def jsTrim (s : String) : String :=
  ⟨((s.data.dropWhile Char.isWhitespace).reverse.dropWhile
      Char.isWhitespace).reverse⟩

/-- JavaScript `String.prototype.toLowerCase()`: lowercase each
character. -/
def jsToLower (s : String) : String := ⟨s.data.map Char.toLower⟩

/-! ## Turn-taking coordinator of the WebRTC session
(use-live-api.ts, `useOpenAiWebRtc`, lines 318-336 and 510-569) -/

/-- The mutable turn-taking refs of the WebRTC session:
`assistantRespondingRef`, `lastHandledUserTranscriptRef`,
`lastAssistantDoneAtRef`, and `responseWatchdogRef` modelled as the
absolute deadline (ms) of the pending 12 s timer, `none` when no timer is
pending. -/
structure TurnState where
  assistantResponding : Bool
  lastHandledUserTranscript : String
  lastAssistantDoneAt : Nat
  watchdogDeadline : Option Nat
deriving DecidableEq, Repr

/-- The turn-taking reset applied by `disconnect` (lines 346-349). -/
def turnReset : TurnState :=
  { assistantResponding := false
    lastHandledUserTranscript := ""
    lastAssistantDoneAt := 0
    watchdogDeadline := none }

/-- Data-channel messages, classified as the handler's `payload.type`
dispatch does; `unrecognized` covers unparsable or unknown payloads. -/
inductive DCMessage where
  | userTranscriptCompleted (transcript : String)
  | agentTranscriptDelta (delta : String)
  | agentTranscriptDone
  | responseCreated
  | responseDone
  | responseError
  | outputItemDone
  | unrecognized
deriving DecidableEq, Repr

/-- Observable outputs of the data-channel message handler: the two
transcript callbacks and the `response.create` send. -/
inductive DCOutput where
  | userTranscriptCb (text : String)
  | agentTranscriptCb (text : String)
  | responseCreate
deriving DecidableEq, Repr

/-- The `dataChannel.onmessage` handler (lines 510-569).  `now` is
`Date.now()` at handling time and `dcOpen` is
`dataChannel.readyState === "open"`.  Returns the updated turn state and
the emitted outputs in order. -/
def handleDCMessage (now : Nat) (dcOpen : Bool) (st : TurnState) :
    DCMessage → TurnState × List DCOutput
  | .userTranscriptCompleted t =>
      let transcript := jsTrim t
      if transcript = "" then (st, [])
      else
        let normalized := jsToLower transcript
        if normalized = st.lastHandledUserTranscript then (st, [])
        else if now - st.lastAssistantDoneAt < 1200 then (st, [])
        else
          let st1 := { st with lastHandledUserTranscript := normalized }
          if !st1.assistantResponding && dcOpen then
            ({ st1 with assistantResponding := true
                        watchdogDeadline := some (now + 12000) },
             [.userTranscriptCb transcript, .responseCreate])
          else (st1, [.userTranscriptCb transcript])
  | .agentTranscriptDelta d =>
      if d = "" then (st, []) else (st, [.agentTranscriptCb d])
  | .agentTranscriptDone => (st, [])
  | .responseCreated =>
      ({ st with assistantResponding := true
                 watchdogDeadline := some (now + 12000) }, [])
  | .responseDone =>
      ({ st with assistantResponding := false
                 lastAssistantDoneAt := now
                 watchdogDeadline := none }, [])
  | .responseError =>
      ({ st with assistantResponding := false
                 lastAssistantDoneAt := now
                 watchdogDeadline := none }, [])
  | .outputItemDone =>
      ({ st with assistantResponding := false
                 lastAssistantDoneAt := now
                 watchdogDeadline := none }, [])
  | .unrecognized => (st, [])

/-- The watchdog timer callback (`startResponseWatchdog`, lines 330-336)
firing at time `now`: forcibly clears the responding flag and records the
completion timestamp; the pending timer is consumed. -/
def fireWatchdog (now : Nat) (st : TurnState) : TurnState :=
  { st with assistantResponding := false
            lastAssistantDoneAt := now
            watchdogDeadline := none }

/-! ## Message-oriented live session handler
(use-live-api.ts, `useLiveApi`, onmessage lines 149-202) -/

/-- The fields of a `LiveServerMessage` the onmessage handler inspects:
setup acknowledgment, the two transcription texts, and the presence of an
inline audio payload. -/
structure LiveServerMsg where
  setupComplete : Bool
  outputTranscription : Option String
  inputTranscription : Option String
  hasAudioData : Bool
deriving DecidableEq, Repr

/-- Observable outputs of the live-session onmessage handler. -/
inductive LiveOutput where
  | greetingTrigger
  | agentTranscriptCb (text : String)
  | userTranscriptCb (text : String)
  | scheduleAudio
deriving DecidableEq, Repr

/-- The transcript/audio part of one `useLiveApi` onmessage step:
transcription callbacks fire only on truthy (non-empty) text, and an
inline audio payload goes to the scheduler. -/
def transcriptOutputs (m : LiveServerMsg) : List LiveOutput :=
  (match m.outputTranscription with
    | some t => if t = "" then [] else [LiveOutput.agentTranscriptCb t]
    | none => []) ++
  (match m.inputTranscription with
    | some t => if t = "" then [] else [LiveOutput.userTranscriptCb t]
    | none => []) ++
  (if m.hasAudioData then [LiveOutput.scheduleAudio] else [])

/-- One step of the `useLiveApi` onmessage handler over the greeting
one-shot flag `g` (`greetingSentRef`): on a setup-complete message with
the flag unset, set the flag and send the synthetic greeting-trigger
turn before the rest of the processing. -/
def liveOnMessage (g : Bool) (m : LiveServerMsg) : Bool × List LiveOutput :=
  if m.setupComplete && !g then
    (true, LiveOutput.greetingTrigger :: transcriptOutputs m)
  else (g, transcriptOutputs m)

/-- Process a whole inbound message sequence, threading the greeting
flag and concatenating outputs. -/
def liveOnMessages (g : Bool) : List LiveServerMsg → Bool × List LiveOutput
  | [] => (g, [])
  | m :: ms =>
      ((liveOnMessages (liveOnMessage g m).1 ms).1,
        (liveOnMessage g m).2 ++ (liveOnMessages (liveOnMessage g m).1 ms).2)

/-! ## Session states, disconnect and connect rollback -/

/-- Resource-release events observable during teardown, one constructor
per releasable resource across both session variants. -/
inductive Released where
  | session
  | inputProcessor
  | inputSource
  | mediaStreamTracks
  | dataChannel
  | peerConnection
  | audioElementSink
  | webrtcInputSource
  | webrtcOutputSource
  | localStreamTracks
  | remoteStreamTracks
deriving DecidableEq, Repr

/-- State of the message-oriented session hook (`useLiveApi`): which refs
currently hold a resource, the connection flags, the greeting one-shot
flag and the error field. -/
structure GeminiState where
  session : Bool
  inputProcessor : Bool
  inputSource : Bool
  mediaStream : Bool
  isConnected : Bool
  isConnecting : Bool
  greetingSent : Bool
  error : Option String
deriving DecidableEq, Repr

/-- `disconnect` of `useLiveApi` (lines 51-76): close the session, then
disconnect the processor and source nodes, stop all media-stream tracks,
null every ref, and clear both connection flags.  Returns the new state
and the release events, each emitted only when the ref was non-null. -/
def geminiDisconnect (s : GeminiState) : GeminiState × List Released :=
  ({ s with session := false
            inputProcessor := false
            inputSource := false
            mediaStream := false
            isConnected := false
            isConnecting := false },
   (if s.session then [Released.session] else [])
     ++ (if s.inputProcessor then [Released.inputProcessor] else [])
     ++ (if s.inputSource then [Released.inputSource] else [])
     ++ (if s.mediaStream then [Released.mediaStreamTracks] else []))

/-- The start of `useLiveApi.connect` (lines 79-84): the early-return
guard, then `setIsConnecting(true)`, `setError(null)` and the greeting
one-shot flag reset `greetingSentRef.current = false`. -/
def geminiConnectBegin (s : GeminiState) : GeminiState :=
  if s.isConnected || s.isConnecting then s
  else { s with isConnecting := true, error := none, greetingSent := false }

/-- Failure points of `useLiveApi.connect` (lines 78-259): resuming the
audio context, microphone permission (`getUserMedia`), or the live
endpoint dial (`ai.live.connect`). -/
inductive GeminiFailPoint where
  | resumeCtx
  | mediaPermission
  | liveConnect
deriving DecidableEq, Repr

/-- A `useLiveApi.connect` call that fails at point `f` with error `e`:
early-return guard, then `isConnecting := true`, `error := null`,
greeting flag reset, resource acquisition up to the failure point, then
the catch block (lines 253-258): `setError(err)`, `setIsConnecting(false)`,
`disconnect()`. -/
def geminiConnectFail (s : GeminiState) (f : GeminiFailPoint) (e : String) :
    GeminiState × List Released :=
  if s.isConnected || s.isConnecting then (s, [])
  else
    let s0 := { s with isConnecting := true, error := none, greetingSent := false }
    let sAtFail :=
      match f with
      | .resumeCtx => s0
      | .mediaPermission => s0
      | .liveConnect =>
          { s0 with mediaStream := true, inputSource := true, inputProcessor := true }
    geminiDisconnect { sAtFail with error := some e, isConnecting := false }

/-- State of the WebRTC session hook (`useOpenAiWebRtc`): which refs hold
a resource (the local stream carries its audio tracks' `enabled` flags),
the connection and mute flags, the turn-taking state and the error field. -/
structure WebRtcState where
  dataChannel : Bool
  peerConnection : Bool
  audioElement : Bool
  inputSource : Bool
  outputSource : Bool
  localStream : Option (List Bool)
  remoteStream : Bool
  isConnected : Bool
  isConnecting : Bool
  isMicMuted : Bool
  turn : TurnState
  error : Option String
deriving DecidableEq, Repr

/-- `disconnect` of `useOpenAiWebRtc` (lines 345-396): reset the
turn-taking refs and clear the watchdog, close the data channel and peer
connection, detach the audio sink, disconnect both analyser sources, stop
all local and remote tracks, null every ref, and clear the connected,
connecting and mute flags.  Release events are emitted only for refs that
were non-null. -/
def webrtcDisconnect (s : WebRtcState) : WebRtcState × List Released :=
  ({ s with turn := turnReset
            dataChannel := false
            peerConnection := false
            audioElement := false
            inputSource := false
            outputSource := false
            localStream := none
            remoteStream := false
            isConnected := false
            isConnecting := false
            isMicMuted := false },
   (if s.dataChannel then [Released.dataChannel] else [])
     ++ (if s.peerConnection then [Released.peerConnection] else [])
     ++ (if s.audioElement then [Released.audioElementSink] else [])
     ++ (if s.inputSource then [Released.webrtcInputSource] else [])
     ++ (if s.outputSource then [Released.webrtcOutputSource] else [])
     ++ (if s.localStream.isSome then [Released.localStreamTracks] else [])
     ++ (if s.remoteStream then [Released.remoteStreamTracks] else []))

/-- `setMuted` (lines 398-405): no-op without a local stream; otherwise
set every audio track's `enabled` to the negation of `muted` and record
the mute flag. -/
def setMuted (s : WebRtcState) (muted : Bool) : WebRtcState :=
  match s.localStream with
  | none => s
  | some tracks =>
      { s with localStream := some (tracks.map fun _ => !muted)
               isMicMuted := muted }

/-- `toggleMute` (lines 407-415): no-op without a local stream; otherwise
flip the mute flag and set every track's `enabled` accordingly. -/
def toggleMute (s : WebRtcState) : WebRtcState :=
  match s.localStream with
  | none => s
  | some tracks =>
      let nextMuted := !s.isMicMuted
      { s with localStream := some (tracks.map fun _ => !nextMuted)
               isMicMuted := nextMuted }

/-- Failure points of `useOpenAiWebRtc.connect` (lines 417-644): resuming
the audio context, the relay token fetch, microphone permission, or the
SDP offer/answer exchange. -/
inductive WebRtcFailPoint where
  | resumeCtx
  | tokenFetch
  | mediaPermission
  | sdpExchange
deriving DecidableEq, Repr

/-- A `useOpenAiWebRtc.connect` call that fails at point `f` with error
`e`, having acquired `tracks` local audio tracks when it got that far:
early-return guard, then `isConnecting := true`, `error := null`, the
three turn-taking refs reset, acquisition up to the failure point, then
the catch block (lines 636-641): `setError`, `setIsConnecting(false)`,
`disconnect()`. -/
def webrtcConnectFail (s : WebRtcState) (f : WebRtcFailPoint) (e : String)
    (tracks : Nat) : WebRtcState × List Released :=
  if s.isConnected || s.isConnecting then (s, [])
  else
    let s0 :=
      { s with isConnecting := true
               error := none
               turn := { s.turn with assistantResponding := false
                                     lastHandledUserTranscript := ""
                                     lastAssistantDoneAt := 0 } }
    let sAtFail :=
      match f with
      | .resumeCtx => s0
      | .tokenFetch => s0
      | .mediaPermission => s0
      | .sdpExchange =>
          { s0 with localStream := some (List.replicate tracks true)
                    isMicMuted := false
                    inputSource := true
                    peerConnection := true
                    dataChannel := true
                    audioElement := true
                    remoteStream := true }
    webrtcDisconnect { sAtFail with error := some e, isConnecting := false }

/-- Which resource a `useLiveApi` state currently holds, per release
event. -/
def geminiHolds (s : GeminiState) : Released → Bool
  | .session => s.session
  | .inputProcessor => s.inputProcessor
  | .inputSource => s.inputSource
  | .mediaStreamTracks => s.mediaStream
  | _ => false

/-- Which resource a `useOpenAiWebRtc` state currently holds, per
release event. -/
def webrtcHolds (s : WebRtcState) : Released → Bool
  | .dataChannel => s.dataChannel
  | .peerConnection => s.peerConnection
  | .audioElementSink => s.audioElement
  | .webrtcInputSource => s.inputSource
  | .webrtcOutputSource => s.outputSource
  | .localStreamTracks => s.localStream.isSome
  | .remoteStreamTracks => s.remoteStream
  | _ => false

/-! ## Prompt builder (math-tutor.ts, lines 1-35) -/

/-- The constant wrong-answer analysis directive embedded in the
conditional section of the prompt. -/
def analysisDirective : String :=
  "ANALYZE THE WRONG ANSWER:\n- If the wrong answer seems random, nonsensical, or unrelated to the problem: the student likely needs to understand the fundamentals first. Gently probe what they understand and guide them step by step.\n- If the wrong answer shows partial understanding (e.g., right approach but arithmetic error, or close to correct): the student needs a nudge in the right direction. Point out where they went astray without giving away the full solution.\n- Use this to tailor your first hint and greeting."

/-- `wrongAnswerSection`: empty when no wrong attempt was supplied or it
trims to empty, otherwise the attempt echo plus the analysis directive. -/
def wrongAnswerSection : Option String → String
  | none => ""
  | some w =>
      if jsTrim w = "" then ""
      else "\nSTUDENT\x27S ATTEMPT (wrong answer they typed): " ++ jsTrim w
             ++ "\n\n" ++ analysisDirective

/-- Template text preceding the question. -/
def tutorHeader : String :=
  "You are a math tutor helping a student with ONE specific problem.\n\nLANGUAGE: Always respond in English only. Do not use Hindi or any other language.\n\nCURRENT PROBLEM:\nQuestion: "

/-- Template text between the question and the answer. -/
def tutorAnswerLabel : String :=
  "\nCorrect answer (for your reference only, do not reveal): "

/-- Template text following the conditional section. -/
def tutorBehavior : String :=
  "\n\nYOUR BEHAVIOR:\n1. First say: \"I\x27m here to help you with this problem.\"\n2. If the student provided a wrong answer, briefly acknowledge it and tailor your hint based on your analysis (random guess vs. needs a nudge).\n3. Give ONE brief hint (do not solve it).\n4. Ask: \"Where are you stuck?\" or similar.\n5. Based on their response, give targeted help. Use Socratic method - ask guiding questions.\n6. NEVER go off-topic. If the user asks about something unrelated, say: \"Let\x27s focus on this math problem. Can you tell me what part you\x27re stuck on?\"\n7. Do not give the full solution unless the user is clearly stuck after multiple hints.\n8. Keep responses concise (2-3 sentences for voice).\n9. Speak only in English. Never switch to Hindi or other languages."

/-- `buildMathTutorSystemInstruction`: the full instruction template with
the question, answer and conditional wrong-answer section interpolated. -/
def buildMathTutorSystemInstruction (question answer : String)
    (wrongAnswer : Option String) : String :=
  tutorHeader ++ question ++ tutorAnswerLabel ++ answer ++ "\n"
    ++ wrongAnswerSection wrongAnswer ++ tutorBehavior

/-- `s` contains `sub` as a contiguous substring. -/
def ContainsStr (s sub : String) : Prop := ∃ l r, s = l ++ sub ++ r

end VoiceChat

namespace VoiceChat

/-- Unfolding equation of the scheduler: the start time is
`max(now, slot)` and the slot advances by exactly the duration. -/
theorem scheduleAll_cons (slot now dur : ℚ) (rest : List (ℚ × ℚ)) :
    scheduleAll slot ((now, dur) :: rest) =
      (max now slot, dur) :: scheduleAll (max now slot + dur) rest := rfl

/-- Every scheduled start is at least the slot the scheduling began
with (the slot only ever advances). -/
theorem scheduleAll_head_le (slot : ℚ) (events : List (ℚ × ℚ)) :
    ∀ b ∈ (scheduleAll slot events).head?, slot ≤ b.1 := by
  cases events with
  | nil => simp [scheduleAll]
  | cons e rest =>
      obtain ⟨n, d⟩ := e
      intro b hb
      simp [scheduleAll] at hb
      simp [← hb]

/-- Each start time is at least the playback clock at its schedule time,
and durations are carried through unchanged. -/
theorem scheduleAll_forall2 (slot : ℚ) (events : List (ℚ × ℚ)) :
    List.Forall₂ (fun ev out => ev.1 ≤ out.1 ∧ ev.2 = out.2)
      events (scheduleAll slot events) := by
  induction events generalizing slot with
  | nil => simp [scheduleAll]
  | cons e rest ih =>
      obtain ⟨n, d⟩ := e
      exact List.Forall₂.cons ⟨le_max_left n slot, rfl⟩ (ih _)

/-- No overlap: every scheduled start is at least the previous chunk's
end time (start plus duration). -/
theorem scheduleAll_no_overlap (slot : ℚ) (events : List (ℚ × ℚ)) :
    List.Chain' (fun p q => p.1 + p.2 ≤ q.1) (scheduleAll slot events) := by
  induction events generalizing slot with
  | nil => simp [scheduleAll]
  | cons e rest ih =>
      obtain ⟨n, d⟩ := e
      rw [scheduleAll_cons, List.chain'_cons']
      refine ⟨fun b hb => ?_, ih _⟩
      exact scheduleAll_head_le _ _ b hb

/-- With nonnegative buffer durations, start times are non-decreasing. -/
theorem scheduleAll_mono (slot : ℚ) (events : List (ℚ × ℚ))
    (hdur : ∀ p ∈ events, 0 ≤ p.2) :
    List.Chain' (fun p q => p.1 ≤ q.1) (scheduleAll slot events) := by
  induction events generalizing slot with
  | nil => simp [scheduleAll]
  | cons e rest ih =>
      obtain ⟨n, d⟩ := e
      rw [scheduleAll_cons, List.chain'_cons']
      refine ⟨fun b hb => ?_, ih _ fun p hp => hdur p (List.mem_cons_of_mem _ hp)⟩
      have h1 := scheduleAll_head_le (max n slot + d) rest b hb
      have h2 : 0 ≤ d := hdur (n, d) (List.mem_cons_self _ _)
      linarith

/-- Claim C1: in the message-oriented session's inbound handler, each
payload starts at `max(playback clock, next-free-slot)` and the slot then
advances by exactly the buffer's duration; consequently (for nonnegative
durations) start times are non-decreasing, each start is at least the
previous payload's end time (no overlap), and each start is at least the
playback clock at schedule time. -/
theorem scheduler_timeline_invariants (slot : ℚ) (events : List (ℚ × ℚ))
    (hdur : ∀ p ∈ events, 0 ≤ p.2) :
    (∀ now dur rest, scheduleAll slot ((now, dur) :: rest) =
        (max now slot, dur) :: scheduleAll (max now slot + dur) rest) ∧
    List.Forall₂ (fun ev out => ev.1 ≤ out.1 ∧ ev.2 = out.2)
      events (scheduleAll slot events) ∧
    List.Chain' (fun p q => p.1 + p.2 ≤ q.1) (scheduleAll slot events) ∧
    List.Chain' (fun p q => p.1 ≤ q.1) (scheduleAll slot events) :=
  ⟨fun _ _ _ => rfl, scheduleAll_forall2 slot events,
    scheduleAll_no_overlap slot events, scheduleAll_mono slot events hdur⟩

/-- Claim C1 witness: the invariants evaluated on a concrete arrival
sequence (clock times 0 then 1/4, durations 1/2 each, initial slot 1/10). -/
theorem scheduler_timeline_invariants_witness :
    (∀ p ∈ [((0 : ℚ), (1 : ℚ)/2), (1/4, 1/2)], 0 ≤ p.2) ∧
    List.Chain' (fun p q => p.1 + p.2 ≤ q.1)
      (scheduleAll (1/10) [((0 : ℚ), (1 : ℚ)/2), (1/4, 1/2)]) :=
  ⟨by norm_num,
    (scheduler_timeline_invariants (1/10) [((0 : ℚ), (1 : ℚ)/2), (1/4, 1/2)]
      (by norm_num)).2.2.1⟩

/-- Round-trip error of the clamp-scale-truncate encoder followed by the
divide-by-32768 decoder, for any clamped sample: below two quantization
steps always, and below one step for non-positive samples. -/
theorem truncRound_error (s : ℚ) (h1 : -1 ≤ s) (h2 : s ≤ 1) :
    |s - decodePcm16 (truncTowardZero (if s < 0 then s * 32768 else s * 32767))|
        < 2 / 32768 ∧
    (s ≤ 0 →
      |s - decodePcm16 (truncTowardZero (if s < 0 then s * 32768 else s * 32767))|
        < 1 / 32768) := by
  by_cases hneg : s < 0
  · rw [if_pos hneg]
    have hsc : ¬ (0 : ℚ) ≤ s * 32768 := by nlinarith
    unfold truncTowardZero decodePcm16
    rw [if_neg hsc]
    have hf1 : (⌊-(s * 32768)⌋ : ℚ) ≤ -(s * 32768) := Int.floor_le _
    have hf2 : -(s * 32768) < ⌊-(s * 32768)⌋ + 1 := Int.lt_floor_add_one _
    push_cast
    constructor
    · rw [abs_lt]; constructor <;> linarith
    · intro _; rw [abs_lt]; constructor <;> linarith
  · push_neg at hneg
    rw [if_neg (not_lt.mpr hneg)]
    have hsc : (0 : ℚ) ≤ s * 32767 := by nlinarith
    unfold truncTowardZero decodePcm16
    rw [if_pos hsc]
    have hf1 : (⌊s * 32767⌋ : ℚ) ≤ s * 32767 := Int.floor_le _
    have hf2 : s * 32767 < ⌊s * 32767⌋ + 1 := Int.lt_floor_add_one _
    constructor
    · rw [abs_lt]; constructor <;> linarith
    · intro hle; rw [abs_lt]; constructor <;> linarith

/-- Claim C3 counterexample: at input sample `9999/10000` the encoder
yields `32763`, and decoding by 32768 misses the clamped value by MORE
than one quantization step (more than `1/32768`, indeed more than
`1/32767`), refuting the one-step round-trip bound. -/
theorem pcm16_roundtrip_counterexample :
    encodePcm16 (9999/10000) = 32763 ∧
    1 / 32768 < |clampSample (9999/10000) - decodePcm16 (encodePcm16 (9999/10000))| ∧
    1 / 32767 < |clampSample (9999/10000) - decodePcm16 (encodePcm16 (9999/10000))| := by
  have hc : clampSample ((9999 : ℚ)/10000) = 9999/10000 := by
    rw [clampSample, min_def, max_def]
    norm_num
  have he : encodePcm16 ((9999 : ℚ)/10000) = 32763 := by
    unfold encodePcm16 truncTowardZero
    rw [hc, if_neg (show ¬((9999 : ℚ)/10000 < 0) by norm_num),
      if_pos (show (0 : ℚ) ≤ 9999/10000 * 32767 by norm_num)]
    norm_num
  refine ⟨he, ?_, ?_⟩ <;>
    · rw [hc, he]
      unfold decodePcm16
      rw [abs_of_pos (by norm_num)]
      norm_num

/-- Claim C3 (amended): the encoder first clamps to `[-1, 1]`, then
scales negatives by 32768 and non-negatives by 32767 with truncation, so
`1.0 ↦ 32767`, `-1.0 ↦ -32768`, `0.0 ↦ 0`; decoding back by 32768
recovers the clamped value within TWO quantization steps (and within one
step for non-positive samples) — one step alone is exceeded for some
positive samples. -/
theorem pcm16_encode_decode (x : ℚ) :
    encodePcm16 1 = 32767 ∧ encodePcm16 (-1) = -32768 ∧ encodePcm16 0 = 0 ∧
    encodePcm16 x = truncTowardZero
      (if clampSample x < 0 then clampSample x * 32768 else clampSample x * 32767) ∧
    |clampSample x - decodePcm16 (encodePcm16 x)| < 2 / 32768 ∧
    (clampSample x ≤ 0 →
      |clampSample x - decodePcm16 (encodePcm16 x)| < 1 / 32768) := by
  have h1 : (-1 : ℚ) ≤ clampSample x := le_max_left _ _
  have h2 : clampSample x ≤ 1 := max_le (by norm_num) (min_le_left _ _)
  have hmain := truncRound_error (clampSample x) h1 h2
  refine ⟨?_, ?_, ?_, rfl, hmain.1, hmain.2⟩
  · unfold encodePcm16 truncTowardZero clampSample
    rw [min_def, max_def]
    norm_num
  · unfold encodePcm16 truncTowardZero clampSample
    rw [min_def, max_def]
    norm_num
  · unfold encodePcm16 truncTowardZero clampSample
    rw [min_def, max_def]
    norm_num

/-- Claim C3 witness: the one-step bound of the amended theorem applied
at the concrete non-positive sample `-1/2`. -/
theorem pcm16_encode_decode_witness :
    clampSample (-1/2) ≤ 0 ∧
    |clampSample (-1/2) - decodePcm16 (encodePcm16 (-1/2))| < 1 / 32768 :=
  ⟨by rw [clampSample, min_def, max_def]; norm_num,
    (pcm16_encode_decode (-1/2)).2.2.2.2.2
      (by rw [clampSample, min_def, max_def]; norm_num)⟩

/-- A completed user-transcript whose normalized text equals the last
handled one is dropped: no outputs, state unchanged. -/
theorem handleDC_dup_drop (st : TurnState) (now : Nat) (dc : Bool) (t : String)
    (h : jsToLower (jsTrim t) = st.lastHandledUserTranscript) :
    handleDCMessage now dc st (.userTranscriptCompleted t) = (st, []) := by
  by_cases h1 : jsTrim t = ""
  · simp [handleDCMessage, h1]
  · simp [handleDCMessage, h1, h]

/-- If a completed user-transcript was forwarded to the callback, the
resulting state records its normalized text as last handled. -/
theorem handleDC_fwd_lastHandled (st : TurnState) (now : Nat) (dc : Bool)
    (t : String)
    (hfwd : DCOutput.userTranscriptCb (jsTrim t) ∈
      (handleDCMessage now dc st (.userTranscriptCompleted t)).2) :
    (handleDCMessage now dc st
        (.userTranscriptCompleted t)).1.lastHandledUserTranscript
      = jsToLower (jsTrim t) := by
  by_cases h1 : jsTrim t = ""
  · simp [handleDCMessage, h1] at hfwd
  · by_cases h2 : jsToLower (jsTrim t) = st.lastHandledUserTranscript
    · simp [handleDCMessage, h1, h2] at hfwd
    · by_cases h3 : now - st.lastAssistantDoneAt < 1200
      · simp [handleDCMessage, h1, h2, h3] at hfwd
      · by_cases h4 : (!st.assistantResponding && dc) = true
        · simp [handleDCMessage, h1, h2, h3, h4]
        · simp [handleDCMessage, h1, h2, h3, h4]

/-- Claim C4: of two consecutive completed user-transcript events with
equal case-normalized texts, if the first was forwarded to the callback
then the second produces no outputs at all (the callback is not invoked)
and leaves the turn state unchanged. -/
theorem duplicate_user_transcript_dropped
    (st : TurnState) (now now' : Nat) (dc dc' : Bool) (t1 t2 : String)
    (hnorm : jsToLower (jsTrim t1) = jsToLower (jsTrim t2))
    (hfwd : DCOutput.userTranscriptCb (jsTrim t1) ∈
      (handleDCMessage now dc st (.userTranscriptCompleted t1)).2) :
    handleDCMessage now' dc'
        (handleDCMessage now dc st (.userTranscriptCompleted t1)).1
        (.userTranscriptCompleted t2) =
      ((handleDCMessage now dc st (.userTranscriptCompleted t1)).1, []) :=
  handleDC_dup_drop _ now' dc' t2
    (by rw [handleDC_fwd_lastHandled st now dc t1 hfwd]; exact hnorm.symm)

/-- Claim C4 witness: a forwarded "Hi there" followed by its duplicate
"hi THERE" starting from the reset turn state at times 5000 and 5100. -/
theorem duplicate_user_transcript_dropped_witness :
    (jsToLower (jsTrim "Hi there") = jsToLower (jsTrim "hi THERE")) ∧
    (DCOutput.userTranscriptCb (jsTrim "Hi there") ∈
      (handleDCMessage 5000 true turnReset
        (.userTranscriptCompleted "Hi there")).2) ∧
    handleDCMessage 5100 false
        (handleDCMessage 5000 true turnReset
          (.userTranscriptCompleted "Hi there")).1
        (.userTranscriptCompleted "hi THERE") =
      ((handleDCMessage 5000 true turnReset
          (.userTranscriptCompleted "Hi there")).1, []) :=
  ⟨by decide, by decide,
    duplicate_user_transcript_dropped turnReset 5000 5100 true false
      "Hi there" "hi THERE" (by decide) (by decide)⟩

/-- Claim C5: a completed user-transcript event arriving within the
1200 ms suppression window after the last recorded agent-turn-end is
dropped outright (no callback, no response request, state unchanged);
one arriving at or after the window boundary whose trimmed text is
non-empty and non-duplicate is forwarded to the callback. -/
theorem suppression_window_filters
    (st : TurnState) (now : Nat) (dc : Bool) (text : String) :
    (now - st.lastAssistantDoneAt < 1200 →
      handleDCMessage now dc st (.userTranscriptCompleted text) = (st, [])) ∧
    (¬ now - st.lastAssistantDoneAt < 1200 → jsTrim text ≠ "" →
      jsToLower (jsTrim text) ≠ st.lastHandledUserTranscript →
      DCOutput.userTranscriptCb (jsTrim text) ∈
        (handleDCMessage now dc st (.userTranscriptCompleted text)).2) := by
  constructor
  · intro hwin
    by_cases h1 : jsTrim text = ""
    · simp [handleDCMessage, h1]
    · by_cases h2 : jsToLower (jsTrim text) = st.lastHandledUserTranscript
      · simp [handleDCMessage, h1, h2]
      · simp [handleDCMessage, h1, h2, hwin]
  · intro hwin h1 h2
    by_cases h4 : (!st.assistantResponding && dc) = true
    · simp [handleDCMessage, h1, h2, hwin, h4]
    · simp [handleDCMessage, h1, h2, hwin, h4]

/-- Claim C5 witness: with the agent turn ended at 10000, an event at
10500 (inside the window) is dropped and an event at 11200 (at the
window boundary) is forwarded. -/
theorem suppression_window_filters_witness :
    (10500 - (10000 : Nat) < 1200 ∧
      handleDCMessage 10500 true
          { turnReset with lastAssistantDoneAt := 10000 }
          (.userTranscriptCompleted "Hello") =
        ({ turnReset with lastAssistantDoneAt := 10000 }, [])) ∧
    (DCOutput.userTranscriptCb (jsTrim "Hello") ∈
      (handleDCMessage 11200 true
        { turnReset with lastAssistantDoneAt := 10000 }
        (.userTranscriptCompleted "Hello")).2) :=
  ⟨⟨by decide,
    (suppression_window_filters { turnReset with lastAssistantDoneAt := 10000 }
        10500 true "Hello").1 (by decide)⟩,
    (suppression_window_filters { turnReset with lastAssistantDoneAt := 10000 }
        11200 true "Hello").2 (by decide) (by decide) (by decide)⟩

/-- Claim C8: after a `response.created` at time `t` the responding flag
is set and the watchdog is armed with the fixed 12000 ms deadline; if no
completion event arrives and the watchdog fires at its deadline, the
responding flag is cleared, and a subsequently accepted user utterance
(non-empty, non-duplicate, outside the echo-suppression window, channel
open) again triggers a `response.create` request. -/
theorem watchdog_liveness (st : TurnState) (t tMsg : Nat) (dc : Bool)
    (text : String)
    (hafter : t + 12000 + 1200 ≤ tMsg)
    (htext : jsTrim text ≠ "")
    (hdup : jsToLower (jsTrim text) ≠ st.lastHandledUserTranscript) :
    (handleDCMessage t dc st .responseCreated).1.assistantResponding = true ∧
    (handleDCMessage t dc st .responseCreated).1.watchdogDeadline
      = some (t + 12000) ∧
    (fireWatchdog (t + 12000)
      (handleDCMessage t dc st .responseCreated).1).assistantResponding = false ∧
    DCOutput.responseCreate ∈
      (handleDCMessage tMsg true
        (fireWatchdog (t + 12000) (handleDCMessage t dc st .responseCreated).1)
        (.userTranscriptCompleted text)).2 := by
  have hwin : ¬ tMsg - (t + 12000) < 1200 := by omega
  refine ⟨by simp [handleDCMessage], by simp [handleDCMessage],
    by simp [handleDCMessage, fireWatchdog], ?_⟩
  simp [handleDCMessage, fireWatchdog, htext, hdup, hwin]

/-- Claim C8 witness: the liveness chain evaluated from the reset turn
state with `response.created` at time 0, the watchdog firing at 12000,
and the utterance "ok" arriving at 13200. -/
theorem watchdog_liveness_witness :
    DCOutput.responseCreate ∈
      (handleDCMessage 13200 true
        (fireWatchdog 12000 (handleDCMessage 0 true turnReset .responseCreated).1)
        (.userTranscriptCompleted "ok")).2 :=
  (watchdog_liveness turnReset 0 13200 true "ok" (by decide) (by decide)
    (by decide)).2.2.2

/-- The transcript/audio outputs of a live-session message never include
the greeting trigger. -/
theorem transcriptOutputs_no_greeting (m : LiveServerMsg) :
    (transcriptOutputs m).count LiveOutput.greetingTrigger = 0 := by
  rcases m with ⟨sc, ot, it, had⟩
  cases ot <;> cases it <;> cases had <;>
    · simp only [transcriptOutputs, List.count_append]
      split_ifs <;> simp [List.count_cons]

/-- Once the greeting flag is set, processing any message sequence keeps
it set and never emits another greeting trigger. -/
theorem liveOnMessages_after_sent (msgs : List LiveServerMsg) :
    (liveOnMessages true msgs).1 = true ∧
    (liveOnMessages true msgs).2.count LiveOutput.greetingTrigger = 0 := by
  induction msgs with
  | nil => simp [liveOnMessages]
  | cons m ms ih =>
      have hm : liveOnMessage true m = (true, transcriptOutputs m) := by
        simp [liveOnMessage]
      simp [liveOnMessages, hm, List.count_append,
        transcriptOutputs_no_greeting, ih.1, ih.2]

/-- Claim C7: within one connection (greeting flag starting reset), the
synthetic greeting-trigger turn is emitted exactly once when the message
sequence contains a setup-complete acknowledgment — no matter how often
the acknowledgment recurs — and never when it does not; and `connect`
resets the one-shot flag at its start. -/
theorem greeting_one_shot (msgs : List LiveServerMsg) (s : GeminiState)
    (hguard : (s.isConnected || s.isConnecting) = false) :
    ((liveOnMessages false msgs).2.count LiveOutput.greetingTrigger
        = if msgs.any (fun m => m.setupComplete) then 1 else 0) ∧
    (geminiConnectBegin s).greetingSent = false := by
  constructor
  · induction msgs with
    | nil => simp [liveOnMessages]
    | cons m ms ih =>
        by_cases hsc : m.setupComplete
        · have hm : liveOnMessage false m =
              (true, LiveOutput.greetingTrigger :: transcriptOutputs m) := by
            simp [liveOnMessage, hsc]
          simp [liveOnMessages, hm, List.count_append, List.count_cons,
            transcriptOutputs_no_greeting, (liveOnMessages_after_sent ms).2, hsc]
        · have hm : liveOnMessage false m = (false, transcriptOutputs m) := by
            simp [liveOnMessage, hsc]
          simp [liveOnMessages, hm, List.count_append,
            transcriptOutputs_no_greeting, ih, hsc]
  · simp [geminiConnectBegin, hguard]

/-- Claim C7 witness: a sequence delivering the setup acknowledgment
twice yields exactly one greeting trigger, and `connect` from the idle
state resets the flag. -/
theorem greeting_one_shot_witness :
    ((liveOnMessages false
        [⟨true, none, none, false⟩, ⟨true, none, none, false⟩]).2.count
          LiveOutput.greetingTrigger = 1) ∧
    (geminiConnectBegin
        ⟨false, false, false, false, false, false, true, none⟩).greetingSent
      = false := by
  have h := greeting_one_shot
    [⟨true, none, none, false⟩, ⟨true, none, none, false⟩]
    ⟨false, false, false, false, false, false, true, none⟩ (by decide)
  refine ⟨?_, h.2⟩
  rw [h.1]
  decide

/-- Count of one release event in a conditional singleton segment. -/
theorem count_if_segment (b : Bool) (x y : Released) :
    ((if b = true then [x] else []) : List Released).count y =
      if b = true ∧ x = y then 1 else 0 := by
  by_cases h : b = true <;> by_cases h2 : x = y <;>
    simp [h, h2, List.count_cons]

/-- Claim C2: for both session variants, `disconnect` from any state
releases exactly the currently held resources, each exactly once, clears
the connected/connecting (and mute) flags, resets the WebRTC turn-taking
state, and a second call releases nothing and changes nothing. -/
theorem disconnect_idempotent_releases_once (g : GeminiState) (w : WebRtcState) :
    ((geminiDisconnect g).1.isConnected = false ∧
      (geminiDisconnect g).1.isConnecting = false ∧
      (∀ r, geminiHolds (geminiDisconnect g).1 r = false) ∧
      (∀ r, (geminiDisconnect g).2.count r
        = if geminiHolds g r then 1 else 0) ∧
      geminiDisconnect (geminiDisconnect g).1 = ((geminiDisconnect g).1, [])) ∧
    ((webrtcDisconnect w).1.isConnected = false ∧
      (webrtcDisconnect w).1.isConnecting = false ∧
      (webrtcDisconnect w).1.isMicMuted = false ∧
      (webrtcDisconnect w).1.turn = turnReset ∧
      (∀ r, webrtcHolds (webrtcDisconnect w).1 r = false) ∧
      (∀ r, (webrtcDisconnect w).2.count r
        = if webrtcHolds w r then 1 else 0) ∧
      webrtcDisconnect (webrtcDisconnect w).1 = ((webrtcDisconnect w).1, [])) := by
  refine ⟨⟨rfl, rfl, ?_, ?_, rfl⟩, rfl, rfl, rfl, rfl, ?_, ?_, rfl⟩
  · intro r; cases r <;> simp [geminiDisconnect, geminiHolds]
  · intro r
    cases r <;>
      simp [geminiDisconnect, geminiHolds, List.count_append, count_if_segment]
  · intro r; cases r <;> simp [webrtcDisconnect, webrtcHolds]
  · intro r
    cases r <;>
      simp [webrtcDisconnect, webrtcHolds, List.count_append, count_if_segment]

/-- Claim C6: for both session variants, a `connect` attempt entered
from the idle state that fails at any step (token fetch, device
permission, endpoint dial, SDP exchange) performs the same teardown as
`disconnect`, surfaces exactly the failure's error in the error field,
returns the state to idle (connected and connecting both false), and
leaves no resource held — in particular no lingering media tracks. -/
theorem connect_failure_rollback (g : GeminiState) (w : WebRtcState)
    (fg : GeminiFailPoint) (fw : WebRtcFailPoint) (e e' : String) (tracks : Nat)
    (hg : (g.isConnected || g.isConnecting) = false)
    (hw : (w.isConnected || w.isConnecting) = false) :
    ((geminiConnectFail g fg e).1.error = some e ∧
      (geminiConnectFail g fg e).1.isConnected = false ∧
      (geminiConnectFail g fg e).1.isConnecting = false ∧
      (∀ r, geminiHolds (geminiConnectFail g fg e).1 r = false)) ∧
    ((webrtcConnectFail w fw e' tracks).1.error = some e' ∧
      (webrtcConnectFail w fw e' tracks).1.isConnected = false ∧
      (webrtcConnectFail w fw e' tracks).1.isConnecting = false ∧
      (webrtcConnectFail w fw e' tracks).1.localStream = none ∧
      (webrtcConnectFail w fw e' tracks).1.remoteStream = false ∧
      (∀ r, webrtcHolds (webrtcConnectFail w fw e' tracks).1 r = false)) := by
  constructor
  · cases fg <;>
      exact ⟨by simp [geminiConnectFail, hg, geminiDisconnect],
        by simp [geminiConnectFail, hg, geminiDisconnect],
        by simp [geminiConnectFail, hg, geminiDisconnect],
        fun r => by
          cases r <;> simp [geminiConnectFail, hg, geminiDisconnect, geminiHolds]⟩
  · cases fw <;>
      exact ⟨by simp [webrtcConnectFail, hw, webrtcDisconnect],
        by simp [webrtcConnectFail, hw, webrtcDisconnect],
        by simp [webrtcConnectFail, hw, webrtcDisconnect],
        by simp [webrtcConnectFail, hw, webrtcDisconnect],
        by simp [webrtcConnectFail, hw, webrtcDisconnect],
        fun r => by
          cases r <;> simp [webrtcConnectFail, hw, webrtcDisconnect, webrtcHolds]⟩

/-- Claim C6 witness: rollback evaluated for a permission denial in the
message-oriented variant starting from the idle state. -/
theorem connect_failure_rollback_witness :
    ((false || false) = false) ∧
    (geminiConnectFail ⟨false, false, false, false, false, false, false, none⟩
        GeminiFailPoint.mediaPermission "denied").1.error = some "denied" :=
  ⟨rfl,
    (connect_failure_rollback
      ⟨false, false, false, false, false, false, false, none⟩
      ⟨false, false, false, false, false, none, false, false, false, false,
        turnReset, none⟩
      GeminiFailPoint.mediaPermission WebRtcFailPoint.mediaPermission
      "denied" "denied" 1 rfl rfl).1.1⟩

/-- Claim C9: the prompt builder is a pure function of its inputs; with
a wrong attempt whose trim is non-empty, the produced instruction
contains the question text and the answer text verbatim and the
non-empty wrong-answer analysis directive; with no wrong attempt the
conditional section is empty, so the output is exactly the template with
nothing in its place. -/
theorem prompt_builder_props (q a wa : String) :
    (jsTrim wa ≠ "" →
      ContainsStr (buildMathTutorSystemInstruction q a (some wa)) q ∧
      ContainsStr (buildMathTutorSystemInstruction q a (some wa)) a ∧
      ContainsStr (buildMathTutorSystemInstruction q a (some wa))
        analysisDirective ∧
      analysisDirective ≠ "") ∧
    (wrongAnswerSection none = "" ∧
      buildMathTutorSystemInstruction q a none =
        tutorHeader ++ q ++ tutorAnswerLabel ++ a ++ "\n" ++ "" ++ tutorBehavior) := by
  constructor
  · intro hwa
    have hsec : wrongAnswerSection (some wa) =
        "\nSTUDENT\x27S ATTEMPT (wrong answer they typed): " ++ jsTrim wa
          ++ "\n\n" ++ analysisDirective := by
      simp [wrongAnswerSection, hwa]
    refine ⟨⟨tutorHeader,
        tutorAnswerLabel ++ a ++ "\n" ++ wrongAnswerSection (some wa)
          ++ tutorBehavior, ?_⟩,
      ⟨tutorHeader ++ q ++ tutorAnswerLabel,
        "\n" ++ wrongAnswerSection (some wa) ++ tutorBehavior, ?_⟩,
      ⟨tutorHeader ++ q ++ tutorAnswerLabel ++ a ++ "\n"
          ++ "\nSTUDENT\x27S ATTEMPT (wrong answer they typed): " ++ jsTrim wa
          ++ "\n\n",
        tutorBehavior, ?_⟩, by decide⟩
    · simp only [buildMathTutorSystemInstruction, String.append_assoc]
    · simp only [buildMathTutorSystemInstruction, String.append_assoc]
    · simp only [buildMathTutorSystemInstruction, hsec, String.append_assoc]
  · exact ⟨rfl, rfl⟩

/-- Claim C9 witness: the containment properties evaluated on the
spec's concrete inputs (question "Solve x^2-4=0", answer "x=2 or x=-2",
wrong attempt "x=3"). -/
theorem prompt_builder_props_witness :
    jsTrim "x=3" ≠ "" ∧
    ContainsStr
      (buildMathTutorSystemInstruction "Solve x^2-4=0" "x=2 or x=-2" (some "x=3"))
      "Solve x^2-4=0" :=
  ⟨by decide,
    ((prompt_builder_props "Solve x^2-4=0" "x=2 or x=-2" "x=3").1
      (by decide)).1⟩

/-- Claim C10: with a local stream present, `setMuted m` sets every
audio track's enabled flag to the negation of `m` and the mute flag to
`m`; `toggleMute` negates the mute flag and sets every track's enabled
flag accordingly; with no local stream both operations change nothing. -/
theorem mute_operations (s : WebRtcState) (m : Bool) (tracks : List Bool)
    (h : s.localStream = some tracks) :
    ((setMuted s m).localStream = some (tracks.map fun _ => !m) ∧
      (setMuted s m).isMicMuted = m ∧
      (toggleMute s).isMicMuted = !s.isMicMuted ∧
      (toggleMute s).localStream
        = some (tracks.map fun _ => !(!s.isMicMuted))) ∧
    (∀ s' : WebRtcState, s'.localStream = none →
      setMuted s' m = s' ∧ toggleMute s' = s') := by
  refine ⟨⟨?_, ?_, ?_, ?_⟩, fun s' h' => ⟨?_, ?_⟩⟩
  · simp [setMuted, h]
  · simp [setMuted, h]
  · simp [toggleMute, h]
  · simp [toggleMute, h]
  · simp [setMuted, h']
  · simp [toggleMute, h']

/-- Claim C10 witness: muting with two live tracks disables both and
sets the flag. -/
theorem mute_operations_witness :
    (setMuted
        ⟨false, false, false, false, false, some [true, true], false, true,
          false, false, turnReset, none⟩ true).localStream
      = some [false, false] :=
  (mute_operations
      ⟨false, false, false, false, false, some [true, true], false, true,
        false, false, turnReset, none⟩ true [true, true] rfl).1.1.trans
    (by decide)

end VoiceChat
